import Mathlib

/-!
# SutraPulse account-abstraction contracts — a shallow embedding

Functional models of the four Solidity contracts of
`contracts/evm/contracts/` — `EntryPoint.sol`, `Paymaster.sol`,
`SmartWallet.sol` (proxied by `SmartWalletFactory.sol`) — together with
theorems checking the natural-language specification against them.

Modelling conventions:
* Addresses, byte strings and `uint256` values are `Nat` / `List Nat`;
  Solidity 0.8 checked arithmetic is modelled with explicit bound checks
  where the claims depend on them (prefund computation, balance debits),
  an overflowing or underflowing operation becoming an `Except.error`.
* An EVM `revert` is `Except.error`: an errored call returns no
  post-state, which is exactly the all-or-nothing rollback semantics.
* ECDSA recovery is abstracted: a signature is modelled by the address it
  recovers to (`recover h sig = sig`), which preserves everything the
  claims need (who is recovered, and that the hash ignores the signature).
* `keccak256(abi.encode ...)` is modelled as the canonical tuple of the
  encoded fields (an injective constructor): the digest of a
  collision-resistant hash is identified with its preimage.
* Gas introspection (`gasleft()`, `tx.gasprice`) is an oracle: each
  operation's measured gas is an input, the gas price is part of the world.
-/

deriving instance DecidableEq for Except

namespace EP

/-- `UserOperation` (EntryPoint.sol lines 24–36).  `signature` is modelled
by the address ECDSA recovery yields for it. -/
structure UserOperation where
  sender : Nat
  nonce : Nat
  initCode : List Nat
  callData : List Nat
  callGasLimit : Nat
  verificationGasLimit : Nat
  preVerificationGas : Nat
  maxFeePerGas : Nat
  maxPriorityFeePerGas : Nat
  paymasterAndData : List Nat
  signature : Nat
  deriving DecidableEq

/-- `UserOpInfo` (EntryPoint.sol lines 38–43).  `context` is never written
by the contract and stays empty; `preOpGas` is never written and stays 0. -/
structure UserOpInfo where
  prefund : Nat
  paymaster : Bool
  context : List Nat
  preOpGas : Nat
  deriving DecidableEq

/-- The chain state the EntryPoint reads: its `deposits` mapping, which
addresses carry code, each wallet's authorized-signer table
(`IWallet.isValidSigner`), the chain id and the transaction gas price. -/
structure World where
  deposits : Nat → Nat
  hasCode : Nat → Bool
  signers : Nat → Nat → Bool
  chainid : Nat
  gasPrice : Nat

/-- 2^256, the modulus of `uint256`; checked arithmetic reverts at it. -/
def UINT : Nat := 2 ^ 256

/-- The canonical preimage hashed by `getUserOpHash` (EntryPoint.sol lines
180–194): every `UserOperation` field except `signature`, plus
`block.chainid`.  The collision-resistant digest is identified with this
tuple, so equal hashes mean equal encoded fields. -/
structure OpHash where
  sender : Nat
  nonce : Nat
  initCode : List Nat
  callData : List Nat
  callGasLimit : Nat
  verificationGasLimit : Nat
  preVerificationGas : Nat
  maxFeePerGas : Nat
  maxPriorityFeePerGas : Nat
  paymasterAndData : List Nat
  chainid : Nat
  deriving DecidableEq

/-- `getUserOpHash` (EntryPoint.sol lines 180–194). -/
def getUserOpHash (userOp : UserOperation) (chainid : Nat) : OpHash :=
  { sender := userOp.sender
    nonce := userOp.nonce
    initCode := userOp.initCode
    callData := userOp.callData
    callGasLimit := userOp.callGasLimit
    verificationGasLimit := userOp.verificationGasLimit
    preVerificationGas := userOp.preVerificationGas
    maxFeePerGas := userOp.maxFeePerGas
    maxPriorityFeePerGas := userOp.maxPriorityFeePerGas
    paymasterAndData := userOp.paymasterAndData
    chainid := chainid }

/-- ECDSA recovery over the signed message: abstracted to the identity the
signature encodes (the hash is not consulted, matching the fact that
recovery is a pure function of `(hash, signature)` and the claims only
care about which identity comes out). -/
def recover (_h : OpHash) (sig : Nat) : Nat := sig

/-- `_isValidSigner` (EntryPoint.sol lines 199–205): the external call
into `IWallet(wallet).isValidSigner(signer)` under `try/catch`; a call to
an address without code cannot return a decodable `bool`, so the catch
branch yields `false`. -/
def isValidSigner (w : World) (wallet signer : Nat) : Bool :=
  w.hasCode wallet && w.signers wallet signer

/-- Big-endian interpretation of the first 20 bytes:
`address(bytes20(paymasterAndData[0:20]))` (EntryPoint.sol line 222). -/
def bytesToAddr (bs : List Nat) : Nat :=
  (bs.take 20).foldl (fun a b => a * 256 + b) 0

/-- The paymaster address attached to an operation. -/
def pmAddr (op : UserOperation) : Nat := bytesToAddr op.paymasterAndData

/-- The signature check of `_validatePrepayment` (EntryPoint.sol line
107–109): the recovered identity must equal `op.sender` or be accepted by
the sender wallet's `isValidSigner`. -/
def sigOK (w : World) (op : UserOperation) : Bool :=
  let recovered := recover (getUserOpHash op w.chainid) op.signature
  recovered == op.sender || isValidSigner w op.sender recovered

/-- `prefund = (callGasLimit + verificationGasLimit + preVerificationGas)
* maxFeePerGas` (EntryPoint.sol lines 112–114), as an unbounded natural. -/
def prefundOf (op : UserOperation) : Nat :=
  (op.callGasLimit + op.verificationGasLimit + op.preVerificationGas) * op.maxFeePerGas

/-- Checked-arithmetic side condition for the prefund computation: the sum
of the three gas budgets and the product with the fee cap both fit in
`uint256` (Solidity 0.8 reverts otherwise). -/
def prefundFits (op : UserOperation) : Bool :=
  decide (op.callGasLimit + op.verificationGasLimit + op.preVerificationGas < UINT)
    && decide (prefundOf op < UINT)

/-- `_validatePrepayment` followed by
`_validateAccountAndPaymasterValidationData` for one operation
(EntryPoint.sol lines 99–120 and 210–226), exactly as `handleOps` runs
them: signature, prefund computation, the `deposits[userOp.sender]`
solvency check, the account-deployed check and the paymaster-deployed
check.  Both functions only read the state, so validation is a pure
predicate producing the `UserOpInfo`. -/
def validateOp (w : World) (op : UserOperation) : Except String UserOpInfo :=
  if ¬ sigOK w op then .error "Invalid signature"
  else if ¬ prefundFits op then .error "arithmetic overflow"
  else if w.deposits op.sender < prefundOf op then .error "Insufficient balance for gas"
  else if op.initCode = [] ∧ ¬ w.hasCode op.sender then .error "Account not deployed"
  else if 20 ≤ op.paymasterAndData.length then
    if ¬ w.hasCode (pmAddr op) then .error "Invalid paymaster"
    else .ok { prefund := prefundOf op, paymaster := true, context := [], preOpGas := 0 }
  else .ok { prefund := prefundOf op, paymaster := false, context := [], preOpGas := 0 }

/-- Whether an `Except`-modelled call completes without reverting. -/
def isOkE {α : Type} : Except String α → Bool
  | .ok _ => true
  | .error _ => false

/-- The outcome of `this.innerHandleOp(op.callData, op.sender)` inside the
`try` of `_executeUserOp` (EntryPoint.sol line 134): either the inner call
returns normally carrying the success flag of `sender.call(callData)`
(a failing dispatched call RETURNS `ret false`, it does not raise), or the
inner call itself raises and control moves to the `catch` branch. -/
inductive InnerResult where
  | ret (success : Bool)
  | threw
  deriving DecidableEq

/-- One operation of the execution pass together with its oracle data: the
validated `UserOpInfo` and the gas the EVM meters for it
(`preGas - gasleft() + opInfo.preOpGas`). -/
structure ExecEntry where
  op : UserOperation
  info : UserOpInfo
  inner : InnerResult
  gasUsed : Nat
  deriving DecidableEq

/-- `UserOperationEvent` (EntryPoint.sol lines 45–53). -/
structure Event where
  userOpHash : OpHash
  sender : Nat
  paymaster : Nat
  nonce : Nat
  success : Bool
  actualGasCost : Nat
  actualGas : Nat
  deriving DecidableEq

/-- Pointwise update of a balance mapping. -/
def upd (m : Nat → Nat) (a v : Nat) : Nat → Nat :=
  fun b => if b = a then v else m b

/-- The deposit entry `_executeUserOp` debits: the paymaster's when
`opInfo.paymaster` is set, else the sender's (EntryPoint.sol lines
139–143). -/
def payerOf (e : ExecEntry) : Nat :=
  if e.info.paymaster then pmAddr e.op else e.op.sender

/-- The `UserOperationEvent` emitted for an entry (EntryPoint.sol lines
145–153 and 157–165). -/
def eventOf (w : World) (e : ExecEntry) (success : Bool) (cost : Nat) : Event :=
  { userOpHash := getUserOpHash e.op w.chainid
    sender := e.op.sender
    paymaster := if e.info.paymaster then pmAddr e.op else 0
    nonce := e.op.nonce
    success := success
    actualGasCost := cost
    actualGas := e.gasUsed }

/-- `_executeUserOp` (EntryPoint.sol lines 125–167) on one operation,
returning the new deposits mapping, the emitted event and the
`actualGasCost` added to `collected`.  In the `try` branch the debit
`deposits[payer] -= actualGasCost` is checked arithmetic OUTSIDE the
`try`'s protection, so an underfunded payer reverts the whole
transaction; the `catch` branch performs no debit at all. -/
def execOne (w : World) (deposits : Nat → Nat) (e : ExecEntry) :
    Except String ((Nat → Nat) × Event × Nat) :=
  let cost := e.gasUsed * w.gasPrice
  match e.inner with
  | .ret success =>
      if deposits (payerOf e) < cost then .error "arithmetic underflow"
      else .ok (upd deposits (payerOf e) (deposits (payerOf e) - cost),
                eventOf w e success cost, cost)
  | .threw =>
      .ok (deposits, eventOf w e false cost, cost)

/-- The execution loop of `handleOps` (EntryPoint.sol lines 84–87):
operations run strictly in order, each from the deposits state the
previous one left, events and collected cost accumulating. -/
def execPhase (w : World) (deposits : Nat → Nat) :
    List ExecEntry → Except String ((Nat → Nat) × List Event × Nat)
  | [] => .ok (deposits, [], 0)
  | e :: rest =>
      match execOne w deposits e with
      | .error msg => .error msg
      | .ok (d1, ev, c) =>
          match execPhase w d1 rest with
          | .error msg => .error msg
          | .ok (d2, evs, coll) => .ok (d2, ev :: evs, c + coll)

/-- The validation loop of `handleOps` (EntryPoint.sol lines 76–81):
every operation validated in index order, the first failing `require`
reverting the whole call. -/
def validateAll (w : World) : List UserOperation → Except String (List UserOpInfo)
  | [] => .ok []
  | op :: rest =>
      match validateOp w op with
      | .error msg => .error msg
      | .ok info =>
          match validateAll w rest with
          | .error msg => .error msg
          | .ok infos => .ok (info :: infos)

/-- `handleOps` (EntryPoint.sol lines 71–94): validate every operation in
index order (each `require` failure reverting the whole call), then run
the execution pass, then pay the accumulated total to the beneficiary
(whose transfer, when attempted, must succeed — `payOk` is the oracle for
that external call). -/
def handleOps (w : World) (ops : List UserOperation)
    (oracle : List (InnerResult × Nat)) (beneficiary : Nat) (payOk : Bool) :
    Except String ((Nat → Nat) × List Event × Nat) :=
  match validateAll w ops with
  | .error msg => .error msg
  | .ok infos =>
      let entries := (ops.zip infos).zipWith
        (fun (p : UserOperation × UserOpInfo) (q : InnerResult × Nat) =>
          { op := p.1, info := p.2, inner := q.1, gasUsed := q.2 : ExecEntry }) oracle
      match execPhase w w.deposits entries with
      | .error msg => .error msg
      | .ok (d, evs, collected) =>
          if beneficiary ≠ 0 ∧ collected > 0 then
            if ¬ payOk then .error "Failed to pay beneficiary"
            else .ok (d, evs, collected)
          else .ok (d, evs, collected)

end EP

namespace PM

/-- The mutable state of `Paymaster.sol` that the sponsorship entry points
touch: the `userDeposits` ledger (ETH-value-denominated, credited by
`depositTokens` at the token's exchange rate).  The contract declares no
whitelist of sponsored accounts. -/
structure State where
  userDeposits : Nat → Nat

/-- `validatePaymasterUserOp` (Paymaster.sol lines 111–119): requires the
caller to be the trusted entry point and `userDeposits[sender] ≥
requiredPreFund`, and returns `abi.encode(sender, requiredPreFund)` as the
context.  The function is `view`: it returns no new state. -/
def validatePaymasterUserOp (entryPoint : Nat) (st : State)
    (caller sender requiredPreFund : Nat) : Except String (Nat × Nat) :=
  if caller ≠ entryPoint then .error "Only entry point"
  else if st.userDeposits sender < requiredPreFund then .error "Insufficient deposit"
  else .ok (sender, requiredPreFund)

/-- `postOp` (Paymaster.sol lines 124–135): requires the caller to be the
entry point, decodes the context back into `(sender, requiredPreFund)`,
and debits `actualCost = actualGasCost > requiredPreFund ? actualGasCost :
requiredPreFund` from `userDeposits[sender]` — checked subtraction, so an
insufficient deposit reverts. -/
def postOp (entryPoint : Nat) (st : State) (caller : Nat)
    (context : Nat × Nat) (actualGasCost : Nat) : Except String State :=
  if caller ≠ entryPoint then .error "Only entry point"
  else
    let sender := context.1
    let requiredPreFund := context.2
    let actualCost := if actualGasCost > requiredPreFund then actualGasCost else requiredPreFund
    if st.userDeposits sender < actualCost then .error "arithmetic underflow"
    else .ok { userDeposits := EP.upd st.userDeposits sender (st.userDeposits sender - actualCost) }

end PM

namespace SW

/-- The state of one `SmartWallet` (SmartWallet.sol lines 17–21): owner,
trusted entry point, the private execution counter `nonce`, the
`authorizedSigners` set and the `whitelistedFunctions` selector set. -/
structure State where
  owner : Nat
  entryPoint : Nat
  nonce : Nat
  authorizedSigners : Nat → Bool
  whitelistedFunctions : Nat → Bool

/-- The 4-byte selector at the head of a calldata payload
(`calldataload` big-endian truncation in SmartWallet.sol lines 61–64). -/
def selectorOf (data : List Nat) : Nat :=
  (data.take 4).foldl (fun a b => a * 256 + b) 0

/-- `execute` (SmartWallet.sol lines 53–72): only the entry point or the
owner may call; the target must be non-zero; a non-empty payload's
selector must be whitelisted; the counter is incremented and the call
forwarded — and `require(success)` reverts the whole call (counter
increment included) when the forwarded call fails, `callOk` being the
oracle for that external call's outcome. -/
def execute (st : State) (caller target : Nat) (data : List Nat)
    (callOk : Bool) : Except String State :=
  if caller ≠ st.entryPoint ∧ caller ≠ st.owner then .error "Only EntryPoint or owner"
  else if target = 0 then .error "Invalid target"
  else if data ≠ [] ∧ ¬ st.whitelistedFunctions (selectorOf data) then
    .error "Function not whitelisted"
  else if ¬ callOk then .error "Transaction failed"
  else .ok { st with nonce := st.nonce + 1 }

/-- The body of the `executeBatch` loop (SmartWallet.sol lines 155–171)
over the (already length-checked) zipped entries: each entry requires a
non-zero target and a whitelisted selector (a violation reverting the
whole batch), increments `nonce`, performs the call and RECORDS its
success flag without requiring it. -/
def execBatchLoop (st : State) :
    List (Nat × List Nat × Bool) → Except String (State × List Bool)
  | [] => .ok (st, [])
  | (target, data, callOk) :: rest =>
      if target = 0 then .error "Invalid target"
      else if data ≠ [] ∧ ¬ st.whitelistedFunctions (selectorOf data) then
        .error "Function not whitelisted"
      else
        match execBatchLoop { st with nonce := st.nonce + 1 } rest with
        | .error msg => .error msg
        | .ok (st2, succs) => .ok (st2, callOk :: succs)

/-- `executeBatch` (SmartWallet.sol lines 147–172): entry-point-or-owner
gated, array lengths must agree, then the per-entry loop; `callOks` gives
the outcome of each forwarded call by position. -/
def executeBatch (st : State) (caller : Nat) (targets : List Nat)
    (values : List Nat) (datas : List (List Nat)) (callOks : List Bool) :
    Except String (State × List Bool) :=
  if caller ≠ st.entryPoint ∧ caller ≠ st.owner then .error "Only EntryPoint or owner"
  else if ¬ (targets.length = values.length ∧ values.length = datas.length) then
    .error "Array lengths mismatch"
  else execBatchLoop st ((targets.zip (datas.zip callOks)).map
    (fun p => (p.1, p.2.1, p.2.2)))

/-- `setAuthorizedSigner` (SmartWallet.sol lines 92–96): owner-only flip
of one signer entry (included to show states with the owner removed from
the signer set are reachable). -/
def setAuthorizedSigner (st : State) (caller signer : Nat) (status : Bool) :
    Except String State :=
  if caller ≠ st.owner then .error "Only owner"
  else if signer = 0 then .error "Invalid signer"
  else .ok { st with authorizedSigners :=
    fun a => if a = signer then status else st.authorizedSigners a }

/-- `transferOwnership` (SmartWallet.sol lines 116–120): owner-only;
requires a non-zero new owner; sets `owner := newOwner` and
`authorizedSigners[newOwner] := true`, touching nothing else. -/
def transferOwnership (st : State) (caller newOwner : Nat) :
    Except String State :=
  if caller ≠ st.owner then .error "Only owner"
  else if newOwner = 0 then .error "Invalid new owner"
  else .ok { st with owner := newOwner,
                     authorizedSigners :=
                       fun a => if a = newOwner then true else st.authorizedSigners a }

end SW

namespace FC

/-- Identities in the factory model: externally given addresses
(`base n`, with `base 0` playing `address(0)`), and the CREATE2 address
determined by the factory, the salt and the init-code hash — which for
`SmartWalletFactory` is a function of the proxied `(owner, entryPoint)`
pair baked into `deploymentData` (SmartWalletFactory.sol lines 42–45 and
65–68).  The CREATE2 address formula is keccak-based and collision-free in
the model, hence an injective constructor. -/
inductive Addr where
  | base (n : Nat)
  | create2 (salt : Nat) (owner : Addr) (entryPoint : Addr)
  deriving DecidableEq

/-- The factory's view of the chain: which addresses already carry code
(`Create2.deploy` fails when the target address is occupied). -/
structure State where
  deployed : List Addr
  deriving DecidableEq

/-- `getWalletAddress` (SmartWalletFactory.sol lines 54–74):
`Create2.computeAddress(salt, keccak256(deploymentData))`, a pure function
of the owner, entry point and salt. -/
def getWalletAddress (owner entryPoint : Addr) (salt : Nat) : Addr :=
  Addr.create2 salt owner entryPoint

/-- `createWallet` (SmartWalletFactory.sol lines 28–49): requires non-zero
owner and entry point, then `Create2.deploy(0, salt, deploymentData)` —
which computes the same CREATE2 address as `getWalletAddress` and REVERTS
(`Failed on deploy`) when an account already exists there. -/
def createWallet (st : State) (owner entryPoint : Addr) (salt : Nat) :
    Except String (Addr × State) :=
  if owner = Addr.base 0 then .error "Invalid owner"
  else if entryPoint = Addr.base 0 then .error "Invalid entry point"
  else if getWalletAddress owner entryPoint salt ∈ st.deployed then
    .error "Create2: Failed on deploy"
  else .ok (getWalletAddress owner entryPoint salt,
            { deployed := getWalletAddress owner entryPoint salt :: st.deployed })

end FC

/-! ## Concrete inputs for witnesses and counterexamples -/

/-- A sample operation for concrete instantiations of the C7 theorem. -/
def c7op : EP.UserOperation :=
  { sender := 1, nonce := 2, initCode := [3], callData := [4, 5],
    callGasLimit := 6, verificationGasLimit := 7, preVerificationGas := 8,
    maxFeePerGas := 9, maxPriorityFeePerGas := 10, paymasterAndData := [11],
    signature := 12 }

/-- A Paymaster state for the C2 counterexample: account 7 has a deposit
of 200 and, the contract declaring no whitelist, has never been
whitelisted anywhere. -/
def c2st : PM.State := ⟨fun a => if a = 7 then 200 else 0⟩

/-- A wallet state whose owner 1 has been removed from the signer set
(reachable via `setAuthorizedSigner(owner, false)` from `c10init`). -/
def c10st : SW.State := ⟨1, 9, 0, fun _ => false, fun _ => false⟩

/-- A freshly initialized wallet state: owner 1 is an authorized signer. -/
def c10init : SW.State := ⟨1, 9, 0, fun a => a == 1, fun _ => false⟩

/-- A wallet state for the C10 witness. -/
def c10wit : SW.State := ⟨1, 9, 3, fun a => a == 1, fun s => s == 77⟩

/-- The state `transferOwnership c10wit 1 2` produces. -/
def c10wit2 : SW.State :=
  { c10wit with
    owner := 2
    authorizedSigners := fun a => if a = 2 then true else c10wit.authorizedSigners a }

/-- A Paymaster state for the C5 witness: account 7 holds 100. -/
def c5st : PM.State := ⟨fun a => if a = 7 then 100 else 0⟩

/-- A world for C9: account 1 is a deployed wallet holding a deposit of
100; gas is priced at 1. -/
def c9w : EP.World :=
  { deposits := fun a => if a = 1 then 100 else 0
    hasCode := fun a => a == 1
    signers := fun _ _ => false
    chainid := 1
    gasPrice := 1 }

/-- An unsponsored operation from account 1 with prefund 30. -/
def c9op : EP.UserOperation :=
  { sender := 1, nonce := 0, initCode := [], callData := []
    callGasLimit := 10, verificationGasLimit := 10, preVerificationGas := 10
    maxFeePerGas := 1, maxPriorityFeePerGas := 0
    paymasterAndData := [], signature := 1 }

/-- An execution entry whose inner dispatch raised. -/
def c9e : EP.ExecEntry :=
  { op := c9op, info := { prefund := 30, paymaster := false, context := [], preOpGas := 0 }
    inner := .threw, gasUsed := 42 }

/-- A deposits mapping for the C9 witness. -/
def c9dep : Nat → Nat := fun _ => 5

/-- A factory state where the wallet for `(owner 1, entryPoint 2, salt 5)`
is already deployed. -/
def c6taken : FC.State := ⟨[FC.getWalletAddress (.base 1) (.base 2) 5]⟩

/-- A wallet state for the C8 counterexample: owner 1, entry point 4. -/
def c8st : SW.State := ⟨1, 4, 0, fun _ => false, fun _ => false⟩

/-- A wallet state for the C8 witness. -/
def c8stw : SW.State := ⟨1, 4, 0, fun _ => false, fun s => s == 9⟩

/-- A sponsored operation from account 1 (prefund 30) naming sponsor 2 in
the first 20 bytes of `paymasterAndData`. -/
def c1op : EP.UserOperation :=
  { sender := 1, nonce := 0, initCode := [], callData := []
    callGasLimit := 10, verificationGasLimit := 10, preVerificationGas := 10
    maxFeePerGas := 1, maxPriorityFeePerGas := 0
    paymasterAndData := List.replicate 19 0 ++ [2], signature := 1 }

/-- A world where sponsor 2 holds 1000 but sender 1 holds nothing; both
are deployed. -/
def c1w : EP.World :=
  { deposits := fun a => if a = 2 then 1000 else 0
    hasCode := fun a => a == 1 || a == 2
    signers := fun _ _ => false
    chainid := 1
    gasPrice := 1 }

/-- A world where sender 1 holds 50 (covering the prefund) and everyone
else 1000. -/
def c1w2 : EP.World :=
  { deposits := fun a => if a = 1 then 50 else 1000
    hasCode := fun a => a == 1 || a == 2
    signers := fun _ _ => false
    chainid := 1
    gasPrice := 1 }

/-- A world for C3: wallets 1 and 3 deployed, each holding 100. -/
def c3w : EP.World :=
  { deposits := fun a => if a = 1 then 100 else if a = 3 then 100 else 0
    hasCode := fun a => a == 1 || a == 3
    signers := fun _ _ => false
    chainid := 1
    gasPrice := 1 }

/-- A validly signed operation from account 1. -/
def c3op1 : EP.UserOperation :=
  { sender := 1, nonce := 0, initCode := [], callData := []
    callGasLimit := 10, verificationGasLimit := 10, preVerificationGas := 10
    maxFeePerGas := 1, maxPriorityFeePerGas := 0
    paymasterAndData := [], signature := 1 }

/-- An operation from account 3 whose signature recovers identity 5 —
neither the sender nor one of its authorized signers. -/
def c3op2 : EP.UserOperation :=
  { sender := 3, nonce := 0, initCode := [], callData := []
    callGasLimit := 10, verificationGasLimit := 10, preVerificationGas := 10
    maxFeePerGas := 1, maxPriorityFeePerGas := 0
    paymasterAndData := [], signature := 5 }

/-- A world for C4: wallets 1 and 2 are deployed with deposits of 1000;
sponsor 3 is deployed but holds NOTHING (validation never checks it). -/
def c4w : EP.World :=
  { deposits := fun a => if a = 1 then 1000 else if a = 2 then 1000 else 0
    hasCode := fun a => a == 1 || a == 2 || a == 3
    signers := fun _ _ => false
    chainid := 1
    gasPrice := 1 }

/-- Operation A: unsponsored, from account 1, prefund 30. -/
def c4opA : EP.UserOperation :=
  { sender := 1, nonce := 0, initCode := [], callData := []
    callGasLimit := 10, verificationGasLimit := 10, preVerificationGas := 10
    maxFeePerGas := 1, maxPriorityFeePerGas := 0
    paymasterAndData := [], signature := 1 }

/-- Operation B: from account 2, sponsored by the penniless sponsor 3. -/
def c4opB : EP.UserOperation :=
  { sender := 2, nonce := 0, initCode := [], callData := []
    callGasLimit := 10, verificationGasLimit := 10, preVerificationGas := 10
    maxFeePerGas := 1, maxPriorityFeePerGas := 0
    paymasterAndData := List.replicate 19 0 ++ [3], signature := 2 }

/-- An execution entry whose dispatched call returned failure. -/
def c4e : EP.ExecEntry :=
  { op := c4opA, info := { prefund := 30, paymaster := false, context := [], preOpGas := 0 }
    inner := .ret false, gasUsed := 7 }

/-- A deposits mapping for the C4 witness. -/
def c4dep : Nat → Nat := fun _ => 100

/-! ## C7 — the operation hash -/

/-- C7: `getUserOpHash` is deterministic, ignores the `signature` field,
and — with the collision-resistant digest modelled by its canonical
preimage — is injective in every other `UserOperation` field and the
chain identifier: two operations differing only in signature hash
identically, and a change to any other field (or the chain id) changes
the hash. -/
theorem userOpHash_pure_of_nonsignature_fields :
    (∀ (op : EP.UserOperation) (c : Nat), EP.getUserOpHash op c = EP.getUserOpHash op c)
    ∧ (∀ (op : EP.UserOperation) (c sig : Nat),
        EP.getUserOpHash { op with signature := sig } c = EP.getUserOpHash op c)
    ∧ (∀ (op op' : EP.UserOperation) (c c' : Nat),
        EP.getUserOpHash op c = EP.getUserOpHash op' c' →
        op.sender = op'.sender ∧ op.nonce = op'.nonce ∧ op.initCode = op'.initCode
        ∧ op.callData = op'.callData ∧ op.callGasLimit = op'.callGasLimit
        ∧ op.verificationGasLimit = op'.verificationGasLimit
        ∧ op.preVerificationGas = op'.preVerificationGas
        ∧ op.maxFeePerGas = op'.maxFeePerGas
        ∧ op.maxPriorityFeePerGas = op'.maxPriorityFeePerGas
        ∧ op.paymasterAndData = op'.paymasterAndData ∧ c = c') := by
  refine ⟨fun _ _ => rfl, fun _ _ _ => rfl, fun op op' c c' h => ?_⟩
  simpa [EP.getUserOpHash, EP.OpHash.mk.injEq] using h

/-- Witness for C7: two concrete operations differing only in signature
have equal hashes, and the injectivity conclusion holds at them. -/
theorem userOpHash_pure_of_nonsignature_fields_witness :
    EP.getUserOpHash c7op 5 = EP.getUserOpHash { c7op with signature := 99 } 5
    ∧ c7op.sender = ({ c7op with signature := 99 } : EP.UserOperation).sender
    ∧ c7op.nonce = ({ c7op with signature := 99 } : EP.UserOperation).nonce :=
  ⟨rfl, (userOpHash_pure_of_nonsignature_fields.2.2 c7op { c7op with signature := 99 } 5 5 rfl).1,
    (userOpHash_pure_of_nonsignature_fields.2.2 c7op { c7op with signature := 99 } 5 5 rfl).2.1⟩

/-! ## C2 — sponsor solvency validation -/

/-- C2 (amended): the Paymaster keeps no whitelist of sponsored accounts;
`validatePaymasterUserOp` approves exactly when the caller is the entry
point and the account's converted deposit covers `requiredPreFund`, its
returned context is `(sender, requiredPreFund)`, and — being a `view`
function, as its Lean type shows — it mutates no state. -/
theorem pm_validate_approves_iff_deposit :
    ∀ (ep : Nat) (st : PM.State) (caller sender rpf : Nat),
      (EP.isOkE (PM.validatePaymasterUserOp ep st caller sender rpf)
        = (decide (caller = ep) && decide (rpf ≤ st.userDeposits sender)))
      ∧ (∀ ctx, PM.validatePaymasterUserOp ep st caller sender rpf = .ok ctx →
          ctx = (sender, rpf)) := by
  intro ep st caller sender rpf
  constructor
  · unfold PM.validatePaymasterUserOp
    split_ifs with h1 h2 <;> simp_all [EP.isOkE]
  · intro ctx h
    unfold PM.validatePaymasterUserOp at h
    split_ifs at h
    exact (Except.ok.injEq _ _ ▸ h).symm

/-- Counterexample to C2 as stated: the claim requires sponsorship to be
rejected for any account outside the sponsor's whitelist of sponsored
accounts regardless of balance; `Paymaster.sol` has no such whitelist,
and a never-whitelisted account with sufficient deposit is approved. -/
theorem pm_validate_no_whitelist_counterexample :
    PM.validatePaymasterUserOp 4 c2st 4 7 100 = .ok (7, 100)
    ∧ 100 ≤ c2st.userDeposits 7 := by decide

/-- Witness for C2 (amended): concrete approval and rejection instances. -/
theorem pm_validate_approves_iff_deposit_witness :
    EP.isOkE (PM.validatePaymasterUserOp 4 c2st 4 7 100)
      = (decide ((4 : Nat) = 4) && decide (100 ≤ c2st.userDeposits 7))
    ∧ ((7, 100) : Nat × Nat) = (7, 100) :=
  ⟨(pm_validate_approves_iff_deposit 4 c2st 4 7 100).1,
    (pm_validate_approves_iff_deposit 4 c2st 4 7 100).2 (7, 100) (by decide)⟩

/-! ## C10 — ownership transfer frame -/

/-- C10 (amended): a successful `transferOwnership` sets the owner, adds
the new owner to the authorized-signer set, and changes nothing else: all
other signer entries, the selector whitelist, the entry point and the
counter are untouched — so the previous owner remains an authorized
signer exactly when they were one before the call. -/
theorem transferOwnership_frame :
    ∀ (st : SW.State) (caller newOwner : Nat) (st2 : SW.State),
      SW.transferOwnership st caller newOwner = .ok st2 →
      st2.owner = newOwner ∧ st2.authorizedSigners newOwner = true
      ∧ (∀ a, a ≠ newOwner → st2.authorizedSigners a = st.authorizedSigners a)
      ∧ st2.whitelistedFunctions = st.whitelistedFunctions
      ∧ st2.entryPoint = st.entryPoint ∧ st2.nonce = st.nonce
      ∧ (st.authorizedSigners st.owner = true →
          st2.authorizedSigners st.owner = true) := by
  intro st caller newOwner st2 h
  unfold SW.transferOwnership at h
  split_ifs at h
  cases h
  refine ⟨rfl, by simp, fun a ha => by simp [ha], rfl, rfl, rfl, fun hprev => ?_⟩
  by_cases ho : st.owner = newOwner <;> simp [ho, hprev]

/-- Counterexample to C10 as stated: from a state where the owner removed
themself from the signer set — reachable, as the second conjunct shows —
`transferOwnership` leaves the previous owner a non-signer, so "the
previous owner remains an authorized signer" fails for that state. -/
theorem transferOwnership_prev_owner_counterexample :
    Except.map (fun s : SW.State => (s.owner, s.authorizedSigners 1, s.authorizedSigners 2))
        (SW.transferOwnership c10st 1 2) = .ok (2, false, true)
    ∧ Except.map (fun s : SW.State => (s.owner, s.authorizedSigners 1))
        (SW.setAuthorizedSigner c10init 1 1 false) = .ok (1, false) := by decide

/-- Witness for C10 (amended): a concrete transfer where the frame
conditions are checked, the previous owner staying a signer. -/
theorem transferOwnership_frame_witness :
    SW.transferOwnership c10wit 1 2 = .ok c10wit2
    ∧ c10wit2.owner = 2
    ∧ c10wit2.authorizedSigners 1 = c10wit.authorizedSigners 1 :=
  ⟨rfl, (transferOwnership_frame c10wit 1 2 c10wit2 rfl).1,
    (transferOwnership_frame c10wit 1 2 c10wit2 rfl).2.2.1 1 (by decide)⟩

/-! ## C5 — settlement amounts -/

/-- C5: the token sponsor's `postOp` is entry-point-only and, on a context
`(sender, requiredPreFund)` and a covering deposit, debits exactly
`max(actualGasCost, requiredPreFund)` — never less than the pre-validated
prefund even when the actual cost is lower (an uncovered deposit makes the
checked subtraction revert instead); the ETH-variant settlement done by
the EntryPoint itself in `_executeUserOp` debits exactly `actualGasCost`
from the payer's deposit. -/
theorem postOp_debits_max :
    (∀ (ep : Nat) (st : PM.State) (caller sender rpf cost : Nat),
        caller ≠ ep →
        PM.postOp ep st caller (sender, rpf) cost = .error "Only entry point")
    ∧ (∀ (ep : Nat) (st : PM.State) (sender rpf cost : Nat),
        max cost rpf ≤ st.userDeposits sender →
        PM.postOp ep st ep (sender, rpf) cost =
          .ok { userDeposits :=
            EP.upd st.userDeposits sender (st.userDeposits sender - max cost rpf) })
    ∧ (∀ (ep : Nat) (st : PM.State) (sender rpf cost : Nat),
        st.userDeposits sender < max cost rpf →
        PM.postOp ep st ep (sender, rpf) cost = .error "arithmetic underflow")
    ∧ (∀ (w : EP.World) (d : Nat → Nat) (e : EP.ExecEntry) (b : Bool),
        e.inner = .ret b → e.gasUsed * w.gasPrice ≤ d (EP.payerOf e) →
        EP.execOne w d e =
          .ok (EP.upd d (EP.payerOf e) (d (EP.payerOf e) - e.gasUsed * w.gasPrice),
               EP.eventOf w e b (e.gasUsed * w.gasPrice), e.gasUsed * w.gasPrice)) := by
  have hmax : ∀ cost rpf : Nat, (if cost > rpf then cost else rpf) = max cost rpf := by
    intro cost rpf
    rw [Nat.max_def]
    split <;> split <;> omega
  refine ⟨?_, ?_, ?_, ?_⟩
  · intro ep st caller sender rpf cost hne
    simp [PM.postOp, hne]
  · intro ep st sender rpf cost hle
    simp only [PM.postOp, if_neg (by simp : ¬ ep ≠ ep), hmax]
    rw [if_neg (by omega)]
  · intro ep st sender rpf cost hlt
    simp only [PM.postOp, if_neg (by simp : ¬ ep ≠ ep), hmax]
    rw [if_pos (by omega)]
  · intro w d e b hinner hle
    simp [EP.execOne, hinner, Nat.not_lt.mpr hle]

/-- Witness for C5: with prefund 50 and actual cost 20 the debit is
`max 20 50 = 50` (more than the actual cost), and a non-entry-point
caller is rejected. -/
theorem postOp_debits_max_witness :
    ((3 : Nat) ≠ 4)
    ∧ PM.postOp 4 c5st 3 (7, 50) 20 = .error "Only entry point"
    ∧ max 20 50 ≤ c5st.userDeposits 7
    ∧ PM.postOp 4 c5st 4 (7, 50) 20 =
        .ok { userDeposits := EP.upd c5st.userDeposits 7 (c5st.userDeposits 7 - max 20 50) } :=
  ⟨by decide, postOp_debits_max.1 4 c5st 3 7 50 20 (by decide), by decide,
    postOp_debits_max.2.1 4 c5st 7 50 20 (by decide)⟩

/-! ## C9 — the catch branch collects without debiting -/

/-- C9: when the inner dispatch itself raises (the `catch` branch of
`_executeUserOp`, as opposed to the dispatched call returning `false`),
the operation's metered cost is still returned into `collected` — later
paid to the beneficiary — but no deposit entry is debited; on a concrete
one-operation batch the beneficiary is paid 42 while every deposit is
unchanged, so the payout exceeds the total debited. -/
theorem catch_branch_collects_without_debit :
    (∀ (w : EP.World) (d : Nat → Nat) (e : EP.ExecEntry), e.inner = .threw →
        EP.execOne w d e =
          .ok (d, EP.eventOf w e false (e.gasUsed * w.gasPrice), e.gasUsed * w.gasPrice))
    ∧ Except.map
        (fun r : (Nat → Nat) × List EP.Event × Nat => (r.1 1, r.2.2))
        (EP.handleOps c9w [c9op] [(.threw, 42)] 9 true) = .ok (100, 42)
    ∧ c9w.deposits 1 = 100 := by
  refine ⟨?_, by decide, by decide⟩
  intro w d e hinner
  simp [EP.execOne, hinner]

/-- Witness for C9: the catch-branch equation at a concrete entry. -/
theorem catch_branch_collects_without_debit_witness :
    c9e.inner = .threw
    ∧ EP.execOne c9w c9dep c9e =
        .ok (c9dep, EP.eventOf c9w c9e false (c9e.gasUsed * c9w.gasPrice),
             c9e.gasUsed * c9w.gasPrice) :=
  ⟨rfl, catch_branch_collects_without_debit.1 c9w c9dep c9e rfl⟩

/-! ## C6 — deterministic deployment -/

/-- C6 (amended): every successful `createWallet` returns exactly the
address `getWalletAddress` computes for the same `(owner, entryPoint,
salt)`, and with valid (non-zero) inputs and no account already at that
address the deployment succeeds; when an account already exists there,
`Create2.deploy` reverts rather than no-op (see the counterexample), so
`createWallet` is not idempotent. -/
theorem createWallet_matches_getWalletAddress :
    (∀ (st : FC.State) (o e : FC.Addr) (s : Nat) (r : FC.Addr × FC.State),
        FC.createWallet st o e s = .ok r → r.1 = FC.getWalletAddress o e s)
    ∧ (∀ (st : FC.State) (o e : FC.Addr) (s : Nat),
        o ≠ FC.Addr.base 0 → e ≠ FC.Addr.base 0 →
        FC.getWalletAddress o e s ∉ st.deployed →
        FC.createWallet st o e s =
          .ok (FC.getWalletAddress o e s,
               ⟨FC.getWalletAddress o e s :: st.deployed⟩)) := by
  constructor
  · intro st o e s r h
    unfold FC.createWallet at h
    split_ifs at h
    cases h
    rfl
  · intro st o e s ho he hmem
    unfold FC.createWallet
    rw [if_neg ho, if_neg he, if_neg hmem]

/-- Counterexample to C6 as stated: with the account already deployed at
the computed address, `createWallet` reverts (`Create2` failure) instead
of no-opping and returning that address. -/
theorem createWallet_not_idempotent_counterexample :
    FC.createWallet c6taken (.base 1) (.base 2) 5 = .error "Create2: Failed on deploy"
    ∧ FC.getWalletAddress (.base 1) (.base 2) 5 ∈ c6taken.deployed := by decide

/-- Witness for C6 (amended): a fresh deployment returns the computed
address. -/
theorem createWallet_matches_getWalletAddress_witness :
    ((FC.Addr.base 1) ≠ FC.Addr.base 0) ∧ ((FC.Addr.base 2) ≠ FC.Addr.base 0)
    ∧ (FC.getWalletAddress (.base 1) (.base 2) 5 ∉ (⟨[]⟩ : FC.State).deployed)
    ∧ FC.createWallet ⟨[]⟩ (.base 1) (.base 2) 5 =
        .ok (FC.getWalletAddress (.base 1) (.base 2) 5,
             ⟨FC.getWalletAddress (.base 1) (.base 2) 5 :: (⟨[]⟩ : FC.State).deployed⟩) :=
  ⟨by decide, by decide, by decide,
    createWallet_matches_getWalletAddress.2 ⟨[]⟩ (.base 1) (.base 2) 5
      (by decide) (by decide) (by decide)⟩

/-! ## C8 — the execution counter -/

/-- The `executeBatch` loop increments the counter once per entry it
processes, whatever each entry's call outcome, and records the outcomes
in order. -/
theorem execBatchLoop_nonce (st : SW.State)
    (entries : List (Nat × List Nat × Bool)) :
    ∀ (st2 : SW.State) (succs : List Bool),
      SW.execBatchLoop st entries = .ok (st2, succs) →
      st2.nonce = st.nonce + entries.length ∧ succs = entries.map (fun p => p.2.2) := by
  induction entries generalizing st with
  | nil =>
      intro st2 succs h
      unfold SW.execBatchLoop at h
      cases h
      simp
  | cons e rest ih =>
      intro st2 succs h
      obtain ⟨t, d, ok⟩ := e
      unfold SW.execBatchLoop at h
      split_ifs at h
      rcases hrec : SW.execBatchLoop { st with nonce := st.nonce + 1 } rest with msg | p
      · rw [hrec] at h; cases h
      · rw [hrec] at h
        obtain ⟨st3, succs3⟩ := p
        simp only [Except.ok.injEq, Prod.mk.injEq] at h
        obtain ⟨hA, hB⟩ := h
        obtain ⟨h1, h2⟩ := ih { st with nonce := st.nonce + 1 } st3 succs3 hrec
        constructor
        · rw [← hA]
          simp only [List.length_cons]
          simp at h1
          omega
        · rw [← hB, h2]
          simp

/-- C8 (amended): `execute` increments the counter exactly once per
successful top-level call and a failing call reverts (so no post-state,
and the counter is unchanged); `executeBatch` increments the counter once
per ENTRY, failing entries included; and the wallet never compares the
counter against `Operation.nonce` — `execute`'s outcome is independent of
the stored counter value (and `EP.validateOp` is defined over a `World`
that carries no wallet counter at all). -/
theorem nonce_increment_semantics :
    (∀ (st : SW.State) (caller target : Nat) (data : List Nat) (st2 : SW.State),
        SW.execute st caller target data true = .ok st2 → st2.nonce = st.nonce + 1)
    ∧ (∀ (st : SW.State) (caller target : Nat) (data : List Nat),
        EP.isOkE (SW.execute st caller target data false) = false)
    ∧ (∀ (st : SW.State) (caller : Nat) (targets values : List Nat)
          (datas : List (List Nat)) (callOks : List Bool)
          (st2 : SW.State) (succs : List Bool),
        callOks.length = targets.length →
        SW.executeBatch st caller targets values datas callOks = .ok (st2, succs) →
        st2.nonce = st.nonce + targets.length)
    ∧ (∀ (st : SW.State) (caller target : Nat) (data : List Nat) (callOk : Bool) (k : Nat),
        EP.isOkE (SW.execute { st with nonce := k } caller target data callOk)
          = EP.isOkE (SW.execute st caller target data callOk)) := by
  refine ⟨?_, ?_, ?_, ?_⟩
  · intro st caller target data st2 h
    unfold SW.execute at h
    split_ifs at h
    cases h
    rfl
  · intro st caller target data
    unfold SW.execute
    split_ifs <;> simp_all [EP.isOkE]
  · intro st caller targets values datas callOks st2 succs hlen h
    unfold SW.executeBatch at h
    split_ifs at h with h1 h2
    obtain ⟨hn, _⟩ := execBatchLoop_nonce st _ st2 succs h
    rw [hn]
    simp [List.length_zip]
    omega
  · intro st caller target data callOk k
    simp only [SW.execute]
    split_ifs <;> rfl

/-- Counterexample to C8 as stated: an `executeBatch` entry whose
dispatched call fails still increments the counter — the batch completes
with the counter at 1 and the entry's outcome recorded as `false`. -/
theorem executeBatch_increments_on_failure_counterexample :
    Except.map (fun p : SW.State × List Bool => (p.1.nonce, p.2))
        (SW.executeBatch c8st 1 [5] [0] [[]] [false]) = .ok (1, [false]) := by decide

/-- Witness for C8 (amended): concrete successful `execute`, failing
`execute`, and a two-entry batch with one failing call. -/
theorem nonce_increment_semantics_witness :
    SW.execute c8stw 1 5 [] true = .ok { c8stw with nonce := c8stw.nonce + 1 }
    ∧ ({ c8stw with nonce := c8stw.nonce + 1 } : SW.State).nonce = c8stw.nonce + 1
    ∧ EP.isOkE (SW.execute c8stw 1 5 [] false) = false
    ∧ ([false, true] : List Bool).length = ([5, 6] : List Nat).length
    ∧ SW.executeBatch c8stw 1 [5, 6] [0, 0] [[], []] [false, true] =
        .ok ({ c8stw with nonce := 2 }, [false, true])
    ∧ ({ c8stw with nonce := 2 } : SW.State).nonce = c8stw.nonce + ([5, 6] : List Nat).length :=
  ⟨rfl, nonce_increment_semantics.1 c8stw 1 5 [] _ rfl,
    nonce_increment_semantics.2.1 c8stw 1 5 [],
    by decide, rfl,
    nonce_increment_semantics.2.2.1 c8stw 1 [5, 6] [0, 0] [[], []] [false, true]
      _ [false, true] (by decide) rfl⟩

/-! ## C1 — validation checks the sender's deposit, sponsored or not -/

/-- C1 (amended): for an operation whose `sponsorAndData` carries a
sponsor (length ≥ 20), validation succeeds exactly when the signature
check passes, the prefund computation fits in `uint256`, the SENDER's own
deposit covers the prefund, the account-deployment check passes and the
sponsor address is deployed; the produced info is marked sponsored; and
the outcome is entirely independent of the sponsor's deposit balance —
`_validatePrepayment` always reads `deposits[op.sender]`, never the
sponsor's entry. -/
theorem sponsored_validation_checks_sender_deposit :
    ∀ (w : EP.World) (op : EP.UserOperation), 20 ≤ op.paymasterAndData.length →
      (EP.isOkE (EP.validateOp w op) = true ↔
        (EP.sigOK w op = true ∧ EP.prefundFits op = true
          ∧ EP.prefundOf op ≤ w.deposits op.sender
          ∧ (op.initCode = [] → w.hasCode op.sender = true)
          ∧ w.hasCode (EP.pmAddr op) = true))
      ∧ (∀ info, EP.validateOp w op = .ok info → info.paymaster = true)
      ∧ (∀ d : Nat, EP.pmAddr op ≠ op.sender →
          EP.validateOp { w with deposits := EP.upd w.deposits (EP.pmAddr op) d } op
            = EP.validateOp w op) := by
  intro w op h20
  refine ⟨?_, ?_, ?_⟩
  · unfold EP.validateOp
    split_ifs with h1 h2 h3 h4 h5 <;>
      simp_all [EP.isOkE, Nat.not_lt, Nat.not_le]
  · intro info h
    unfold EP.validateOp at h
    split_ifs at h
    all_goals
      first
        | exact Except.noConfusion h
        | (cases h; rfl)
  · intro d hne
    have hdep : EP.upd w.deposits (EP.pmAddr op) d op.sender = w.deposits op.sender := by
      unfold EP.upd
      rw [if_neg (fun hcontra => hne hcontra.symm)]
    simp only [EP.validateOp, EP.sigOK, EP.isValidSigner, EP.recover, hdep]

/-- Counterexample to C1 as stated: a sponsored operation whose deployed
sponsor holds far more than the prefund while the sender's own deposit is
empty; the claim requires validation to pass (sponsor balance checked,
sender's not), but the code rejects it for insufficient SENDER balance. -/
theorem sponsored_validation_counterexample :
    20 ≤ c1op.paymasterAndData.length
    ∧ EP.sigOK c1w c1op = true
    ∧ c1w.hasCode (EP.pmAddr c1op) = true
    ∧ EP.prefundOf c1op ≤ c1w.deposits (EP.pmAddr c1op)
    ∧ c1w.deposits c1op.sender = 0
    ∧ EP.validateOp c1w c1op = .error "Insufficient balance for gas" := by decide

/-- Witness for C1 (amended): a sponsored operation whose sender deposit
covers the prefund validates, is marked sponsored, and zeroing the
sponsor's balance changes nothing. -/
theorem sponsored_validation_checks_sender_deposit_witness :
    20 ≤ c1op.paymasterAndData.length
    ∧ EP.validateOp c1w2 c1op =
        .ok { prefund := EP.prefundOf c1op, paymaster := true, context := [], preOpGas := 0 }
    ∧ ({ prefund := EP.prefundOf c1op, paymaster := true, context := [], preOpGas := 0 }
        : EP.UserOpInfo).paymaster = true
    ∧ EP.validateOp { c1w2 with deposits := EP.upd c1w2.deposits (EP.pmAddr c1op) 0 } c1op
        = EP.validateOp c1w2 c1op :=
  ⟨by decide, by decide,
    (sponsored_validation_checks_sender_deposit c1w2 c1op (by decide)).2.1 _ (by decide),
    (sponsored_validation_checks_sender_deposit c1w2 c1op (by decide)).2.2 0 (by decide)⟩

/-! ## C3 — a validation failure aborts the whole batch -/

/-- The validation loop fails as a whole as soon as any member of the
batch fails its own validation. -/
theorem validateAll_aborts (w : EP.World) :
    ∀ (ops : List EP.UserOperation),
      (∃ op ∈ ops, EP.isOkE (EP.validateOp w op) = false) →
      ∃ msg, EP.validateAll w ops = .error msg := by
  intro ops
  induction ops with
  | nil =>
      rintro ⟨op, hmem, _⟩
      cases hmem
  | cons a l ih =>
      rintro ⟨op, hmem, hbad⟩
      rcases hv : EP.validateOp w a with msg | info
      · exact ⟨msg, by simp [EP.validateAll, hv]⟩
      · rcases List.mem_cons.mp hmem with rfl | hmem2
        · rw [hv] at hbad
          simp [EP.isOkE] at hbad
        · obtain ⟨msg, hrec⟩ := ih ⟨op, hmem2, hbad⟩
          exact ⟨msg, by simp [EP.validateAll, hv, hrec]⟩

/-- C3: if any operation of the batch fails validation, `handleOps`
reverts as a whole — the result is an error carrying no post-state, so no
deposit, counter or account change survives and no operation of the batch
executes (the execution pass is never reached). -/
theorem batch_aborts_on_validation_failure :
    ∀ (w : EP.World) (ops : List EP.UserOperation)
      (oracle : List (EP.InnerResult × Nat)) (beneficiary : Nat) (payOk : Bool),
      (∃ op ∈ ops, EP.isOkE (EP.validateOp w op) = false) →
      ∃ msg, EP.handleOps w ops oracle beneficiary payOk = .error msg := by
  intro w ops oracle beneficiary payOk h
  obtain ⟨msg, hv⟩ := validateAll_aborts w ops h
  exact ⟨msg, by simp [EP.handleOps, hv]⟩

/-- Witness for C3: a two-operation batch whose second operation has an
invalid signature aborts as a whole, although the first operation alone
validates. -/
theorem batch_aborts_on_validation_failure_witness :
    (∃ op ∈ [c3op1, c3op2], EP.isOkE (EP.validateOp c3w op) = false)
    ∧ EP.isOkE (EP.validateOp c3w c3op1) = true
    ∧ ∃ msg, EP.handleOps c3w [c3op1, c3op2]
        [(.ret true, 1), (.ret true, 1)] 0 true = .error msg :=
  ⟨by decide, by decide,
    batch_aborts_on_validation_failure c3w [c3op1, c3op2]
      [(.ret true, 1), (.ret true, 1)] 0 true (by decide)⟩

/-! ## C4 — execution-failure isolation -/

/-- The execution pass decomposes over batch concatenation: the tail runs
from exactly the deposits state the head left, with events and collected
cost concatenated. -/
theorem execPhase_append (w : EP.World) (l1 l2 : List EP.ExecEntry) :
    ∀ d : Nat → Nat,
      EP.execPhase w d (l1 ++ l2) =
        match EP.execPhase w d l1 with
        | .error msg => .error msg
        | .ok (d1, evs1, c1) =>
            match EP.execPhase w d1 l2 with
            | .error msg => .error msg
            | .ok (d2, evs2, c2) => .ok (d2, evs1 ++ evs2, c1 + c2) := by
  induction l1 with
  | nil =>
      intro d
      simp only [List.nil_append, EP.execPhase]
      rcases hx : EP.execPhase w d l2 with msg | ⟨d2, evs2, c2⟩ <;> simp
  | cons e l1 ih =>
      intro d
      simp only [List.cons_append, EP.execPhase]
      rcases hx : EP.execOne w d e with msg | ⟨d1, ev, c⟩
      · simp
      · dsimp only
        simp only [List.append_eq]
        rw [ih d1]
        rcases hy : EP.execPhase w d1 l1 with msg | ⟨dA, evsA, cA⟩
        · simp
        · dsimp only
          rcases hz : EP.execPhase w dA l2 with msg | ⟨dB, evsB, cB⟩
          · simp
          · simp [Nat.add_assoc]

/-- C4 (amended): once every operation validated, an operation B whose
dispatched call returns failure is isolated PROVIDED B's payer deposit
covers its metered cost: B's cost is debited from the payer (sponsor if
sponsored, else sender), B's single outcome record carries
`success = false`, earlier operations' effects flow into B and the rest
of the batch via the state threading of `execPhase`, and a completed pass
emits exactly one record per operation.  (Without the payer-coverage
proviso the checked debit reverts the whole batch — see the
counterexample — because validation never checked the sponsor's
balance.) -/
theorem exec_failure_isolated :
    (∀ (w : EP.World) (d : Nat → Nat) (l1 l2 : List EP.ExecEntry),
        EP.execPhase w d (l1 ++ l2) =
          match EP.execPhase w d l1 with
          | .error msg => .error msg
          | .ok (d1, evs1, c1) =>
              match EP.execPhase w d1 l2 with
              | .error msg => .error msg
              | .ok (d2, evs2, c2) => .ok (d2, evs1 ++ evs2, c1 + c2))
    ∧ (∀ (w : EP.World) (d : Nat → Nat) (e : EP.ExecEntry),
        e.inner = .ret false → e.gasUsed * w.gasPrice ≤ d (EP.payerOf e) →
        EP.execOne w d e =
          .ok (EP.upd d (EP.payerOf e) (d (EP.payerOf e) - e.gasUsed * w.gasPrice),
               EP.eventOf w e false (e.gasUsed * w.gasPrice), e.gasUsed * w.gasPrice)
          ∧ (EP.eventOf w e false (e.gasUsed * w.gasPrice)).success = false)
    ∧ (∀ (w : EP.World) (d : Nat → Nat) (entries : List EP.ExecEntry)
          (r : (Nat → Nat) × List EP.Event × Nat),
        EP.execPhase w d entries = .ok r → r.2.1.length = entries.length) := by
  refine ⟨fun w d l1 l2 => execPhase_append w l1 l2 d, ?_, ?_⟩
  · intro w d e hinner hle
    exact ⟨by simp [EP.execOne, hinner, Nat.not_lt.mpr hle], rfl⟩
  · intro w d entries
    induction entries generalizing d with
    | nil =>
        intro r h
        unfold EP.execPhase at h
        cases h
        rfl
    | cons e l ih =>
        intro r h
        unfold EP.execPhase at h
        rcases hx : EP.execOne w d e with msg | ⟨d1, ev, c⟩
        · rw [hx] at h
          exact Except.noConfusion h
        · rw [hx] at h
          dsimp only at h
          rcases hy : EP.execPhase w d1 l with msg | ⟨d2, evs, coll⟩
          · rw [hy] at h
            exact Except.noConfusion h
          · rw [hy] at h
            dsimp only at h
            cases h
            have hlen := ih d1 (d2, evs, coll) hy
            simp at hlen ⊢
            omega

/-- Counterexample to C4 as stated: both operations validate (sponsor 3
deployed, balances of SENDERS sufficient — the sponsor's balance is never
validated), operation A's call succeeds, operation B's call fails; B's
debit hits the penniless sponsor, the checked subtraction reverts, and
the WHOLE batch errors — B is not isolated and A's effects do not
persist. -/
theorem exec_failure_not_isolated_counterexample :
    EP.isOkE (EP.validateOp c4w c4opA) = true
    ∧ EP.isOkE (EP.validateOp c4w c4opB) = true
    ∧ c4w.deposits (EP.pmAddr c4opB) = 0
    ∧ Except.map (fun _ : (Nat → Nat) × List EP.Event × Nat => (0 : Nat))
        (EP.handleOps c4w [c4opA, c4opB] [(.ret true, 10), (.ret false, 10)] 0 true)
        = .error "arithmetic underflow" := by decide

/-- Witness for C4 (amended): a failing-call entry with a covered payer
debits exactly its cost and reports failure. -/
theorem exec_failure_isolated_witness :
    c4e.inner = EP.InnerResult.ret false
    ∧ c4e.gasUsed * c4w.gasPrice ≤ c4dep (EP.payerOf c4e)
    ∧ (EP.execOne c4w c4dep c4e =
        .ok (EP.upd c4dep (EP.payerOf c4e) (c4dep (EP.payerOf c4e) - c4e.gasUsed * c4w.gasPrice),
             EP.eventOf c4w c4e false (c4e.gasUsed * c4w.gasPrice),
             c4e.gasUsed * c4w.gasPrice)
        ∧ (EP.eventOf c4w c4e false (c4e.gasUsed * c4w.gasPrice)).success = false) :=
  ⟨rfl, by decide, exec_failure_isolated.2.1 c4w c4dep c4e rfl (by decide)⟩
